import Mathlib

/-!
Shallow embedding of the NASA / ISS dashboard repository (three React
screens sharing a generative-answer client, a telemetry poll loop with
bounded trail buffers, and a chatbot send handler).

The embedding follows the JavaScript source:
  * `callGeminiAPI` (the environment-credential variant) models the
    retry-with-exponential-backoff client.  Each network attempt is
    supplied by an oracle `Nat → FetchOutcome`; the model records the
    returned value, the sequence of backoff sleeps, and the number of
    fetches performed.
  * `fetchISSData` is modelled as `fetchTick`, one poll of the telemetry
    endpoint transforming the tracker state.
  * the trail-buffer push (`points.push(x,y,z); if (len > 3000) splice(0,3)`)
    is `trailPush`.
  * the chatbot handler `handleSend` is modelled as a state transformer over the
    message list.
-/

namespace Nasa

/-- Fixed fallback string returned for a well-formed but unexpectedly
shaped response body (source: `part_001`, line 41). -/
def fallbackMsg : String :=
  "I couldn't find a clear answer for that. Could you try rephrasing?"

/-- Descriptive error string returned when no API key is configured
(source: `part_001`, line 16). -/
def missingKeyMsg : String :=
  "API key is missing. Please create a .env.local file and add your VITE_GEMINI_API_KEY."

/-- Apology string appended by the chatbot when the client fails
(source: `part_001`, line 929). -/
def apologyMsg : String :=
  "Sorry, I'm having trouble connecting to my knowledge base right now. Please try again in a moment."

/-- `response.ok` of the fetch API: HTTP status in the 200..299 range. -/
def statusOk (s : Nat) : Bool := 200 ≤ s && s < 300

/-- One part of the content of a candidate: `{ text: ... }`.  A missing
field is `none`. -/
structure GPart where
  text : Option String
deriving DecidableEq, Repr

/-- The content of a candidate: `{ parts: [...] }`. -/
structure GContent where
  parts : Option (List GPart)
deriving DecidableEq, Repr

/-- One candidate of the response envelope: `{ content: {...} }`. -/
structure GCandidate where
  content : Option GContent
deriving DecidableEq, Repr

/-- The parsed response body: `{ candidates: [...] }`. -/
structure GenResult where
  candidates : Option (List GCandidate)
deriving DecidableEq, Repr

/-- The truthiness test and extraction of
`result.candidates && result.candidates[0]?.content?.parts?.[0]?.text`:
yields the text when every link of the chain is present and the text is a
non-empty string (the empty string is falsy in JavaScript), `none`
otherwise. -/
def extractText (r : GenResult) : Option String :=
  match r.candidates with
  | none => none
  | some cs =>
    match cs.head? with
    | none => none
    | some c =>
      match c.content with
      | none => none
      | some ct =>
        match ct.parts with
        | none => none
        | some ps =>
          match ps.head? with
          | none => none
          | some p =>
            match p.text with
            | none => none
            | some t => if t = "" then none else some t

/-- The outcome of one `fetch` attempt, as seen by `callGeminiAPI`:
either the transport layer fails (fetch rejects, or `response.json()`
throws), or an HTTP response with a status and a parsed body arrives. -/
inductive FetchOutcome where
  | netFail (msg : String)
  | http (status : Nat) (body : GenResult)
deriving DecidableEq, Repr

/-- The failure `callGeminiAPI` can raise: the `Error` built from a non-OK
status, or the transport error itself. -/
inductive GError where
  | httpStatus (s : Nat)
  | net (msg : String)
deriving DecidableEq, Repr

/-- What a run of `callGeminiAPI` produces: the returned value or raised
failure, the backoff sleeps performed (in order, in ms), and the number of
fetch attempts made. -/
structure CallTrace where
  result : Except GError String
  sleeps : List Nat
  fetches : Nat
deriving Repr

/-- The response-handling branch for an OK status (source: `part_001`,
lines 36-42): extract the first text of the first candidate when present
and truthy, otherwise return the fixed fallback string.  Either way no
sleep happens and exactly one fetch was made. -/
def okBranch (body : GenResult) : CallTrace :=
  match extractText body with
  | some t => ⟨.ok t, [], 1⟩
  | none => ⟨.ok fallbackMsg, [], 1⟩

/-- The attempt loop of `callGeminiAPI` (source: `part_001`, lines 21-50).
`oracle i` is the outcome of the i-th fetch attempt.  The four cases
flatten the decision table of the source: on an OK status the response is
handled by `okBranch`; on a non-OK status, a 429 with retries left sleeps
`delay` and recurses with `retries - 1`, `delay * 2`, while any other
status throws — but the throw lands in the same `catch` of the function,
which also sleeps and recurses while retries remain, so every non-OK
status, 429 or not, consumes a retry.  A transport failure is caught the
same way.  With no retries left the failure is re-raised unchanged. -/
def callAux (oracle : Nat → FetchOutcome) (attempt retries delay : Nat) : CallTrace :=
  match oracle attempt, retries with
  | .netFail e, 0 => ⟨.error (.net e), [], 1⟩
  | .netFail _, r + 1 =>
    let t := callAux oracle (attempt + 1) r (delay * 2)
    ⟨t.result, delay :: t.sleeps, t.fetches + 1⟩
  | .http s body, 0 =>
    if statusOk s then okBranch body
    else ⟨.error (.httpStatus s), [], 1⟩
  | .http s body, r + 1 =>
    if statusOk s then okBranch body
    else
      let t := callAux oracle (attempt + 1) r (delay * 2)
      ⟨t.result, delay :: t.sleeps, t.fetches + 1⟩

/-- `callGeminiAPI` (environment-credential variant, source: `part_001`,
lines 9-51).  `apiKey` is the value of `import.meta.env.VITE_GEMINI_API_KEY`
(`none` when unset; the empty string is falsy too), `prompt` the user
prompt (it only shapes the request payload, not the modelled behaviour),
`oracle` the network, `retries` and `delay` the retry count and initial
backoff.  A missing key returns the descriptive error string at once,
without any fetch. -/
def callGeminiAPI (apiKey : Option String) (prompt : String)
    (oracle : Nat → FetchOutcome) (retries delay : Nat) : CallTrace :=
  let _ := prompt
  match apiKey with
  | none => ⟨.ok missingKeyMsg, [], 0⟩
  | some k =>
    if k = "" then ⟨.ok missingKeyMsg, [], 0⟩
    else callAux oracle 0 retries delay

/-- Which attempts count as failures (retry or raise): a transport error,
or a non-OK HTTP status, mapped to the failure the code would raise for
it. -/
def outcomeFails (o : FetchOutcome) : Option GError :=
  match o with
  | .netFail e => some (.net e)
  | .http s _ => if statusOk s then none else some (.httpStatus s)

/-- The sequence of backoff sleeps after `k` failed attempts:
`[delay, delay*2, delay*4, ...]`, each entry double the previous one,
starting from the initial delay. -/
def doubling (delay k : Nat) : List Nat :=
  (List.range k).map (fun i => delay * 2 ^ i)

/-- One trail-buffer append (source: `part_001`, lines 228-230 and
237-239): the three coordinates of the new point are pushed onto the flat
coordinate array, and if the array then exceeds 3000 entries (1000
points) the three oldest coordinates are spliced off the front. -/
def trailPush {α : Type} (points : List α) (x y z : α) : List α :=
  let ps := points ++ [x, y, z]
  if 3000 < ps.length then ps.drop 3 else ps

/-- `THREE.Vector3().setFromSphericalCoords(radius, phi, theta)`:
`x = radius * sin(phi) * sin(theta)`, `y = radius * cos(phi)`,
`z = radius * sin(phi) * cos(theta)`. -/
noncomputable def setFromSphericalCoords (radius phi theta : ℝ) : ℝ × ℝ × ℝ :=
  (radius * Real.sin phi * Real.sin theta,
   radius * Real.cos phi,
   radius * Real.sin phi * Real.cos theta)

/-- The geographic-to-Cartesian conversion of `fetchISSData` (source:
`part_001`, lines 216-222): `phi = (90 - latitude) * pi/180`,
`theta = (longitude + 180) * pi/180`, then spherical-to-Cartesian at the
given radius. -/
noncomputable def latLonToCartesian (lat lon radius : ℝ) : ℝ × ℝ × ℝ :=
  setFromSphericalCoords radius ((90 - lat) * (Real.pi / 180)) ((lon + 180) * (Real.pi / 180))

/-- One sample from the telemetry endpoint (fields read by the code). -/
structure TelemetrySample where
  latitude : ℝ
  longitude : ℝ
  altitude : ℝ
  velocity : ℝ
  visibility : String

/-- The tracker state touched by `fetchISSData`: the current sample
(`issData`), the error indicator (`error`), and the two flat coordinate
buffers backing the orbital-path and ground-track lines. -/
structure TrackerState where
  issData : Option TelemetrySample
  error : Option String
  orbit : List ℝ
  ground : List ℝ

/-- The outcome of one telemetry poll: the transport fails with a
message, or an HTTP response with a status and parsed body arrives. -/
inductive PollOutcome where
  | netFail (msg : String)
  | http (status : Nat) (data : TelemetrySample)

/-- The message of the error thrown by `fetchISSData` for a non-OK
response (source: `part_001`, line 211). -/
def pollNotOkMsg : String := "Network response was not ok"

/-- One tick of `fetchISSData` (source: `part_001`, lines 208-245).  A
transport failure, or a non-OK status (whose thrown error lands in the
same catch), only sets the error indicator: the stored sample and both
trail buffers are untouched, and no retry happens inside the tick — the
interval timer simply fires again later.  A successful poll stores the
new sample, clears the error, and appends the converted point to both
buffers. -/
noncomputable def fetchTick (st : TrackerState) (o : PollOutcome) : TrackerState :=
  match o with
  | .netFail m => { st with error := some m }
  | .http s d =>
    if statusOk s then
      let issRadius := 2.1 + d.altitude / 6371
      let p := latLonToCartesian d.latitude d.longitude issRadius
      let g := latLonToCartesian d.latitude d.longitude 2.01
      { issData := some d
        error := none
        orbit := trailPush st.orbit p.1 p.2.1 p.2.2
        ground := trailPush st.ground g.1 g.2.1 g.2.2 }
    else { st with error := some pollNotOkMsg }

/-- A chat message: text plus sender tag (the code uses the strings
`user` and `bot`). -/
structure ChatMsg where
  text : String
  sender : String
deriving DecidableEq, Repr

/-- The chatbot state touched by `handleSend`: message list, input box
contents, and the in-flight flag. -/
structure ChatState where
  messages : List ChatMsg
  input : String
  isLoading : Bool
deriving DecidableEq, Repr

/-- Sender tag of a user message. -/
def userTag : String := "user"

/-- Sender tag of a bot message. -/
def botTag : String := "bot"

/-- The text of the bot message `handleSend` appends: the client result
on success, the fixed apology string when the awaited client raised. -/
def botReply (res : Except GError String) : String :=
  match res with
  | .ok t => t
  | .error _ => apologyMsg

/-- The guard `input.trim() === ''` of `handleSend`: in JavaScript the
trimmed string is empty exactly when the input is empty or consists of
whitespace only, which is how the test is embedded here. -/
def isBlank (s : String) : Bool := s.data.all Char.isWhitespace

/-- The chatbot send handler (source: `part_001`, lines 915-934).  If the
input is empty after trimming (`isBlank`), or a request is already in
flight, it returns at once: no state change, no network call (second
component `false`).  Otherwise it appends the user message (so it
precedes the bot reply in the list), clears the input, performs the call
(second component `true`), appends the bot reply — the result text or,
when the client raised, the apology string — and the `finally` clears
`isLoading`. -/
def handleSend (st : ChatState) (res : Except GError String) : ChatState × Bool :=
  if isBlank st.input || st.isLoading then (st, false)
  else
    ({ messages := st.messages ++ [⟨st.input, userTag⟩] ++ [⟨botReply res, botTag⟩]
       input := ""
       isLoading := false }, true)

theorem doubling_succ (delay k : Nat) :
    doubling delay (k + 1) = delay :: doubling (delay * 2) k := by
  simp only [doubling, List.range_succ_eq_map, List.map_cons, List.map_map, pow_zero, mul_one]
  congr 1
  apply List.map_congr_left
  intro i _
  simp only [Function.comp_apply, pow_succ]
  ring

theorem callAux_fail_step (oracle : Nat → FetchOutcome) (attempt r delay : Nat) (e : GError)
    (h : outcomeFails (oracle attempt) = some e) :
    callAux oracle attempt (r + 1) delay =
      ⟨(callAux oracle (attempt + 1) r (delay * 2)).result,
       delay :: (callAux oracle (attempt + 1) r (delay * 2)).sleeps,
       (callAux oracle (attempt + 1) r (delay * 2)).fetches + 1⟩ := by
  cases ho : oracle attempt with
  | netFail m => rw [callAux.eq_def, ho]
  | http s body =>
    rw [ho] at h
    have hs : statusOk s = false := by
      by_cases hs : statusOk s
      · simp [outcomeFails, hs] at h
      · simpa using hs
    rw [callAux.eq_def, ho]
    simp [hs]

theorem callAux_fail_last (oracle : Nat → FetchOutcome) (attempt delay : Nat) (e : GError)
    (h : outcomeFails (oracle attempt) = some e) :
    callAux oracle attempt 0 delay = ⟨.error e, [], 1⟩ := by
  cases ho : oracle attempt with
  | netFail m =>
    rw [ho] at h
    simp only [outcomeFails, Option.some.injEq] at h
    rw [callAux.eq_def, ho, ← h]
  | http s body =>
    rw [ho] at h
    have hs : statusOk s = false := by
      by_cases hs : statusOk s
      · simp [outcomeFails, hs] at h
      · simpa using hs
    simp only [outcomeFails, hs, Bool.false_eq_true, if_false, Option.some.injEq] at h
    rw [callAux.eq_def, ho]
    simp [hs, ← h]

theorem callAux_ok_text (oracle : Nat → FetchOutcome) (attempt retries delay s : Nat)
    (body : GenResult) (t : String)
    (ho : oracle attempt = .http s body) (hs : statusOk s = true)
    (hx : extractText body = some t) :
    callAux oracle attempt retries delay = ⟨.ok t, [], 1⟩ := by
  cases retries <;> (rw [callAux.eq_def, ho]; simp [hs, okBranch, hx])

theorem callAux_ok_fallback (oracle : Nat → FetchOutcome) (attempt retries delay s : Nat)
    (body : GenResult)
    (ho : oracle attempt = .http s body) (hs : statusOk s = true)
    (hx : extractText body = none) :
    callAux oracle attempt retries delay = ⟨.ok fallbackMsg, [], 1⟩ := by
  cases retries <;> (rw [callAux.eq_def, ho]; simp [hs, okBranch, hx])

theorem callAux_fails_then_ok (oracle : Nat → FetchOutcome) (t : String) :
    ∀ (k attempt retries delay : Nat), k ≤ retries →
    (∀ i, i < k → (outcomeFails (oracle (attempt + i))).isSome = true) →
    (∃ s body, oracle (attempt + k) = .http s body ∧ statusOk s = true ∧
      extractText body = some t) →
    callAux oracle attempt retries delay = ⟨.ok t, doubling delay k, k + 1⟩ := by
  intro k
  induction k with
  | zero =>
    intro attempt retries delay _ _ hsucc
    obtain ⟨s, body, ho, hs, hx⟩ := hsucc
    rw [Nat.add_zero] at ho
    exact callAux_ok_text oracle attempt retries delay s body t ho hs hx
  | succ k ih =>
    intro attempt retries delay hkr hfail hsucc
    obtain ⟨r, rfl⟩ : ∃ r, retries = r + 1 := ⟨retries - 1, by omega⟩
    have h0 : (outcomeFails (oracle (attempt + 0))).isSome = true :=
      hfail 0 (Nat.succ_pos k)
    rw [Nat.add_zero] at h0
    obtain ⟨e, he⟩ := Option.isSome_iff_exists.mp h0
    rw [callAux_fail_step oracle attempt r delay e he]
    have hfail2 : ∀ i, i < k → (outcomeFails (oracle (attempt + 1 + i))).isSome = true := by
      intro i hi
      have h := hfail (i + 1) (by omega)
      rw [show attempt + (i + 1) = attempt + 1 + i from by omega] at h
      exact h
    have hsucc2 : ∃ s body, oracle (attempt + 1 + k) = .http s body ∧ statusOk s = true ∧
        extractText body = some t := by
      obtain ⟨s, body, ho, hs, hx⟩ := hsucc
      rw [show attempt + (k + 1) = attempt + 1 + k from by omega] at ho
      exact ⟨s, body, ho, hs, hx⟩
    rw [ih (attempt + 1) r (delay * 2) (by omega) hfail2 hsucc2]
    rw [doubling_succ]

theorem callAux_all_fail (oracle : Nat → FetchOutcome) (f : Nat → GError) :
    ∀ (retries attempt delay : Nat),
    (∀ i, i ≤ retries → outcomeFails (oracle (attempt + i)) = some (f (attempt + i))) →
    callAux oracle attempt retries delay =
      ⟨.error (f (attempt + retries)), doubling delay retries, retries + 1⟩ := by
  intro retries
  induction retries with
  | zero =>
    intro attempt delay hfail
    have h0 := hfail 0 (Nat.le_refl 0)
    rw [Nat.add_zero] at h0
    rw [Nat.add_zero]
    exact callAux_fail_last oracle attempt delay (f attempt) h0
  | succ r ih =>
    intro attempt delay hfail
    have h0 := hfail 0 (Nat.zero_le (r + 1))
    rw [Nat.add_zero] at h0
    rw [callAux_fail_step oracle attempt r delay (f attempt) h0]
    have hfail2 : ∀ i, i ≤ r →
        outcomeFails (oracle (attempt + 1 + i)) = some (f (attempt + 1 + i)) := by
      intro i hi
      have h := hfail (i + 1) (by omega)
      rw [show attempt + (i + 1) = attempt + 1 + i from by omega] at h
      exact h
    rw [ih (attempt + 1) (delay * 2) hfail2]
    rw [doubling_succ]
    rw [show attempt + 1 + r = attempt + (r + 1) from by omega]

theorem doubling_getD (delay k j : Nat) (hj : j < k) :
    (doubling delay k).getD j 0 = delay * 2 ^ j := by
  simp [doubling, List.getD_eq_getElem?_getD, List.getElem?_map, List.getElem?_range, hj]

/-- The success text used in concrete runs below. -/
def goodText : String := "All good."

/-- A well-formed response body whose first candidate carries `goodText`
as the text of its first part. -/
def goodBody : GenResult := ⟨some [⟨some ⟨some [⟨some goodText⟩]⟩⟩]⟩

/-- A response body with no `candidates` field at all. -/
def emptyBody : GenResult := ⟨none⟩

/-- A configured (truthy) API key for concrete runs. -/
def keyW : String := "key"

/-- The falsy empty-string API key. -/
def emptyKey : String := ""

/-- A concrete prompt for concrete runs. -/
def promptW : String := "When did Expedition 1 arrive?"

/-- Transport-failure message for concrete runs. -/
def boomMsg : String := "Failed to fetch"

/-- A network where the first attempt is rate-limited and every later
attempt succeeds. -/
def oracle429 : Nat → FetchOutcome := fun i =>
  if i = 0 then .http 429 emptyBody else .http 200 goodBody

/-- A network where the first attempt answers HTTP 500 and every later
attempt succeeds. -/
def oracle500 : Nat → FetchOutcome := fun i =>
  if i = 0 then .http 500 emptyBody else .http 200 goodBody

/-- A network where every attempt fails at the transport layer. -/
def oracleDown : Nat → FetchOutcome := fun _ => .netFail boomMsg

/-- A network answering HTTP 200 with a malformed body every time. -/
def oracleMalformed : Nat → FetchOutcome := fun _ => .http 200 emptyBody

/-- A network answering HTTP 200 with a well-formed body every time. -/
def oracleGood : Nat → FetchOutcome := fun _ => .http 200 goodBody

/-- C1: for every prompt, if the generative endpoint answers HTTP 429 on
the first `k ≥ 1` attempts and attempt `k` succeeds with a well-formed
body (within the retry budget), `callGeminiAPI` returns the success text,
having slept exactly the doubling sequence `delay, 2*delay, 4*delay, ...`
— each backoff sleep is the previous one doubled, starting from the
initial delay. -/
theorem callGeminiAPI_retry429_success (key prompt : String) (hkey : ¬ key = "")
    (oracle : Nat → FetchOutcome) (bodies : Nat → GenResult)
    (k retries delay s : Nat) (body : GenResult) (t : String)
    (_hk : 0 < k) (hkr : k ≤ retries)
    (h429 : ∀ i, i < k → oracle i = .http 429 (bodies i))
    (hsucc : oracle k = .http s body) (hs : statusOk s = true)
    (htext : extractText body = some t) :
    callGeminiAPI (some key) prompt oracle retries delay =
      ⟨.ok t, doubling delay k, k + 1⟩ ∧
    ∀ j, j < k → (doubling delay k).getD j 0 = delay * 2 ^ j := by
  constructor
  · simp only [callGeminiAPI]
    rw [if_neg hkey]
    apply callAux_fails_then_ok oracle t k 0 retries delay hkr
    · intro i hi
      rw [Nat.zero_add, h429 i hi]
      rfl
    · exact ⟨s, body, by rw [Nat.zero_add]; exact hsucc, hs, htext⟩
  · intro j hj
    exact doubling_getD delay k j hj

/-- Witness for C1: one 429 then success returns the success text after a
single sleep of the initial delay, in two fetch attempts. -/
theorem callGeminiAPI_retry429_success_w :
    callGeminiAPI (some keyW) promptW oracle429 3 1000 = ⟨.ok goodText, [1000], 2⟩ := by
  have h := (callGeminiAPI_retry429_success keyW promptW (by decide) oracle429
    (fun _ => emptyBody) 1 3 1000 200 goodBody goodText (by decide) (by decide)
    (by decide) rfl rfl rfl).1
  simpa [doubling] using h

/-- C2: for every prompt, if every attempt fails (transport failure or
non-OK status, all raising the same failure), then after the first
attempt plus `retries` further attempts — `retries + 1` fetches in all —
`callGeminiAPI` re-raises that failure unchanged to the caller instead of
returning a value, having slept the doubling backoff sequence between
attempts. -/
theorem callGeminiAPI_exhausts_retries (key prompt : String) (hkey : ¬ key = "")
    (oracle : Nat → FetchOutcome) (retries delay : Nat) (e : GError)
    (hfail : ∀ i, i ≤ retries → outcomeFails (oracle i) = some e) :
    callGeminiAPI (some key) prompt oracle retries delay =
      ⟨.error e, doubling delay retries, retries + 1⟩ := by
  simp only [callGeminiAPI]
  rw [if_neg hkey]
  have h := callAux_all_fail oracle (fun _ => e) retries 0 delay
    (by intro i hi; rw [Nat.zero_add]; exact hfail i hi)
  simpa using h

/-- Witness for C2: an endpoint that is down for every attempt makes the
client raise the transport failure unchanged after 3 fetches (retries =
2), with sleeps 7 then 14. -/
theorem callGeminiAPI_exhausts_retries_w :
    callGeminiAPI (some keyW) promptW oracleDown 2 7 =
      ⟨.error (.net boomMsg), [7, 14], 3⟩ := by
  have h := callGeminiAPI_exhausts_retries keyW promptW (by decide) oracleDown 2 7
    (.net boomMsg) (by decide)
  simpa [doubling, List.range_succ] using h

/-- C3 counterexample: the claim says a non-429 error status (e.g. 500)
is raised to the caller without consuming a retry.  On the code, with the
default budget, a first-attempt HTTP 500 followed by a success yields the
success text after two fetches: the 500 was not raised, and it consumed a
retry (the thrown status error lands in the catch of the same function,
which retries). -/
theorem callGeminiAPI_500_retried :
    callGeminiAPI (some keyW) promptW oracle500 3 1000 = ⟨.ok goodText, [1000], 2⟩ := by
  rfl

/-- C3 (amended): `callGeminiAPI` treats every failed attempt alike —
HTTP 429, any other non-OK HTTP status, and transport failure: while
retries remain, a failed attempt consumes one retry, sleeping the current
delay and doubling it for the next attempt; the failure is raised to the
caller only when retries are exhausted. -/
theorem callGeminiAPI_any_failure_retries (key prompt : String) (hkey : ¬ key = "")
    (oracle : Nat → FetchOutcome) (r delay : Nat) (e : GError)
    (h : outcomeFails (oracle 0) = some e) :
    (callGeminiAPI (some key) prompt oracle (r + 1) delay =
      ⟨(callAux oracle 1 r (delay * 2)).result,
       delay :: (callAux oracle 1 r (delay * 2)).sleeps,
       (callAux oracle 1 r (delay * 2)).fetches + 1⟩) ∧
    callGeminiAPI (some key) prompt oracle 0 delay = ⟨.error e, [], 1⟩ := by
  constructor
  · simp only [callGeminiAPI]
    rw [if_neg hkey]
    exact callAux_fail_step oracle 0 r delay e h
  · simp only [callGeminiAPI]
    rw [if_neg hkey]
    exact callAux_fail_last oracle 0 delay e h

/-- Witness for C3 (amended): a transport failure with one retry left
consumes the retry after sleeping 5 ms, continuing with delay 10. -/
theorem callGeminiAPI_any_failure_retries_w :
    callGeminiAPI (some keyW) promptW oracleDown 1 5 =
      ⟨(callAux oracleDown 1 0 10).result,
       5 :: (callAux oracleDown 1 0 10).sleeps,
       (callAux oracleDown 1 0 10).fetches + 1⟩ :=
  (callGeminiAPI_any_failure_retries keyW promptW (by decide) oracleDown 0 5
    (.net boomMsg) (by decide)).1

/-- C4: an HTTP-OK response whose JSON body lacks the expected candidate
shape makes `callGeminiAPI` return the fixed fallback string as a normal
value — no failure is raised — after a single fetch, for any retry and
delay configuration. -/
theorem callGeminiAPI_malformed_fallback (key prompt : String) (hkey : ¬ key = "")
    (oracle : Nat → FetchOutcome) (retries delay s : Nat) (body : GenResult)
    (ho : oracle 0 = .http s body) (hs : statusOk s = true)
    (hx : extractText body = none) :
    callGeminiAPI (some key) prompt oracle retries delay = ⟨.ok fallbackMsg, [], 1⟩ := by
  simp only [callGeminiAPI]
  rw [if_neg hkey]
  exact callAux_ok_fallback oracle 0 retries delay s body ho hs hx

/-- Witness for C4: an OK response with no `candidates` field yields the
fallback string. -/
theorem callGeminiAPI_malformed_fallback_w :
    callGeminiAPI (some keyW) promptW oracleMalformed 3 1000 =
      ⟨.ok fallbackMsg, [], 1⟩ :=
  callGeminiAPI_malformed_fallback keyW promptW (by decide) oracleMalformed 3 1000
    200 emptyBody rfl rfl rfl

/-- C5: an HTTP-OK response whose body carries a non-empty text in the
first part of the content of the first candidate makes `callGeminiAPI`
return exactly that text. -/
theorem callGeminiAPI_returns_first_text (key prompt : String) (hkey : ¬ key = "")
    (oracle : Nat → FetchOutcome) (retries delay s : Nat) (body : GenResult)
    (c : GCandidate) (cs : List GCandidate) (ct : GContent)
    (p : GPart) (ps : List GPart) (t : String)
    (ho : oracle 0 = .http s body) (hs : statusOk s = true)
    (hcand : body.candidates = some (c :: cs)) (hct : c.content = some ct)
    (hparts : ct.parts = some (p :: ps)) (hpt : p.text = some t)
    (hne : ¬ t = "") :
    callGeminiAPI (some key) prompt oracle retries delay = ⟨.ok t, [], 1⟩ := by
  have hx : extractText body = some t := by
    simp [extractText, hcand, hct, hparts, hpt, hne]
  simp only [callGeminiAPI]
  rw [if_neg hkey]
  exact callAux_ok_text oracle 0 retries delay s body t ho hs hx

/-- Witness for C5: a well-formed body returns the text of its first
part. -/
theorem callGeminiAPI_returns_first_text_w :
    callGeminiAPI (some keyW) promptW oracleGood 3 1000 = ⟨.ok goodText, [], 1⟩ :=
  callGeminiAPI_returns_first_text keyW promptW (by decide) oracleGood 3 1000 200
    goodBody ⟨some ⟨some [⟨some goodText⟩]⟩⟩ [] ⟨some [⟨some goodText⟩]⟩
    ⟨some goodText⟩ [] goodText rfl rfl rfl rfl rfl rfl (by decide)

/-- C6: in the environment-credential variant, a missing (or falsy empty)
credential makes `callGeminiAPI` return the descriptive error string at
once, with no sleep and zero fetch attempts, whatever the prompt, retry
count, delay, or network. -/
theorem callGeminiAPI_missing_key (apiKey : Option String)
    (h : apiKey = none ∨ apiKey = some emptyKey) (prompt : String)
    (oracle : Nat → FetchOutcome) (retries delay : Nat) :
    callGeminiAPI apiKey prompt oracle retries delay = ⟨.ok missingKeyMsg, [], 0⟩ := by
  rcases h with h | h <;> subst h <;> simp [callGeminiAPI, emptyKey]

/-- Witness for C6: with no key configured, no fetch happens and the
descriptive error string is returned. -/
theorem callGeminiAPI_missing_key_w :
    callGeminiAPI none promptW oracleDown 3 1000 = ⟨.ok missingKeyMsg, [], 0⟩ :=
  callGeminiAPI_missing_key none (Or.inl rfl) promptW oracleDown 3 1000

theorem trailPush_inv {α : Type} (points : List α) (x y z : α)
    (h3 : 3 ∣ points.length) (hle : points.length ≤ 3000) :
    3 ∣ (trailPush points x y z).length ∧ (trailPush points x y z).length ≤ 3000 := by
  have hlen3 : (points ++ [x, y, z]).length = points.length + 3 := by simp
  by_cases hbig : 3000 < (points ++ [x, y, z]).length
  · have hdrop : trailPush points x y z = (points ++ [x, y, z]).drop 3 := by
      simp only [trailPush]
      rw [if_pos hbig]
    have hlen : (trailPush points x y z).length = points.length := by
      rw [hdrop, List.length_drop, hlen3]
      omega
    rw [hlen]
    exact ⟨h3, hle⟩
  · have hkeep : trailPush points x y z = points ++ [x, y, z] := by
      simp only [trailPush]
      rw [if_neg hbig]
    rw [hlen3] at hbig
    have hlen : (trailPush points x y z).length = points.length + 3 := by
      rw [hkeep, hlen3]
    rw [hlen]
    omega

theorem trailPush_foldl_inv {α : Type} :
    ∀ (seq : List (α × α × α)) (points : List α),
    3 ∣ points.length → points.length ≤ 3000 →
    3 ∣ (seq.foldl (fun ps q => trailPush ps q.1 q.2.1 q.2.2) points).length ∧
    (seq.foldl (fun ps q => trailPush ps q.1 q.2.1 q.2.2) points).length ≤ 3000
  | [], points, h3, hle => ⟨h3, hle⟩
  | q :: rest, points, h3, hle => by
    simp only [List.foldl_cons]
    have h := trailPush_inv points q.1 q.2.1 q.2.2 h3 hle
    exact trailPush_foldl_inv rest _ h.1 h.2

/-- C7: starting from a whole-point buffer within the 3000-coordinate
(1000-point) cap, an append keeps the buffer within the cap; a buffer
exactly at the cap loses exactly its oldest point (the first three
coordinates) in FIFO order, a buffer below the cap loses nothing; and
for every sequence of appended points the buffer never exceeds the
cap. -/
theorem trail_buffer_cap {α : Type} (points : List α) (x y z : α)
    (h3 : 3 ∣ points.length) (hle : points.length ≤ 3000) :
    (trailPush points x y z).length ≤ 3000 ∧
    3 ∣ (trailPush points x y z).length ∧
    (points.length = 3000 → trailPush points x y z = points.drop 3 ++ [x, y, z]) ∧
    (points.length < 3000 → trailPush points x y z = points ++ [x, y, z]) ∧
    ∀ seq : List (α × α × α),
      (seq.foldl (fun ps q => trailPush ps q.1 q.2.1 q.2.2) points).length ≤ 3000 := by
  have hlen3 : (points ++ [x, y, z]).length = points.length + 3 := by simp
  have hinv := trailPush_inv points x y z h3 hle
  refine ⟨hinv.2, hinv.1, ?_, ?_, fun seq => (trailPush_foldl_inv seq points h3 hle).2⟩
  · intro h3000
    have hbig : 3000 < (points ++ [x, y, z]).length := by omega
    have hdrop : trailPush points x y z = (points ++ [x, y, z]).drop 3 := by
      simp only [trailPush]
      rw [if_pos hbig]
    rw [hdrop, List.drop_append_of_le_length (by omega)]
  · intro hlt
    have hsmall : ¬ 3000 < (points ++ [x, y, z]).length := by
      rw [hlen3]
      omega
    simp only [trailPush]
    rw [if_neg hsmall]

/-- Witness for C7: appending one point to the empty buffer keeps all
four properties. -/
theorem trail_buffer_cap_w :
    (trailPush ([] : List Nat) 1 2 3).length ≤ 3000 ∧
    3 ∣ (trailPush ([] : List Nat) 1 2 3).length ∧
    (([] : List Nat).length = 3000 →
      trailPush ([] : List Nat) 1 2 3 = ([] : List Nat).drop 3 ++ [1, 2, 3]) ∧
    (([] : List Nat).length < 3000 →
      trailPush ([] : List Nat) 1 2 3 = ([] : List Nat) ++ [1, 2, 3]) ∧
    ∀ seq : List (Nat × Nat × Nat),
      (seq.foldl (fun ps q => trailPush ps q.1 q.2.1 q.2.2) ([] : List Nat)).length ≤ 3000 :=
  trail_buffer_cap [] 1 2 3 (by decide) (by decide)

/-- C8: under the conversion `phi = (90 - lat) * pi/180`,
`theta = (lon + 180) * pi/180` followed by the spherical-to-Cartesian
mapping at radius `r`, latitude 0 / longitude 0 maps to the reference
point `(0, 0, -r)`, and latitudes +90 and -90 map (for every longitude)
to the poles `(0, r, 0)` and `(0, -r, 0)`, for every radius `r`. -/
theorem latLon_reference_and_poles (r lon : ℝ) :
    latLonToCartesian 0 0 r = (0, 0, -r) ∧
    latLonToCartesian 90 lon r = (0, r, 0) ∧
    latLonToCartesian (-90) lon r = (0, -r, 0) := by
  unfold latLonToCartesian setFromSphericalCoords
  have h1 : ((90 : ℝ) - 0) * (Real.pi / 180) = Real.pi / 2 := by ring
  have h2 : ((0 : ℝ) + 180) * (Real.pi / 180) = Real.pi := by ring
  have h3 : ((90 : ℝ) - 90) * (Real.pi / 180) = 0 := by ring
  have h4 : ((90 : ℝ) - (-90)) * (Real.pi / 180) = Real.pi := by ring
  refine ⟨?_, ?_, ?_⟩
  · rw [h1, h2]
    simp [Real.sin_pi, Real.cos_pi, Real.sin_pi_div_two, Real.cos_pi_div_two]
  · rw [h3]
    simp [Real.sin_zero, Real.cos_zero]
  · rw [h4]
    simp [Real.sin_pi, Real.cos_pi]

/-- C9: a failed telemetry poll — transport failure or a non-OK HTTP
status — leaves the stored sample and both trail buffers unchanged and
only sets the error indicator to the user-visible message; the tick
performs no retry, the interval timer simply fires again later. -/
theorem fetchISSData_failure_frame (st : TrackerState) (m : String) (s : Nat)
    (d : TelemetrySample) (hs : statusOk s = false) :
    fetchTick st (.netFail m) = { st with error := some m } ∧
    fetchTick st (.http s d) = { st with error := some pollNotOkMsg } ∧
    (fetchTick st (.netFail m)).issData = st.issData ∧
    (fetchTick st (.netFail m)).orbit = st.orbit ∧
    (fetchTick st (.netFail m)).ground = st.ground ∧
    (fetchTick st (.http s d)).issData = st.issData ∧
    (fetchTick st (.http s d)).orbit = st.orbit ∧
    (fetchTick st (.http s d)).ground = st.ground := by
  have h1 : fetchTick st (.netFail m) = { st with error := some m } := rfl
  have h2 : fetchTick st (.http s d) = { st with error := some pollNotOkMsg } := by
    simp [fetchTick, hs]
  exact ⟨h1, h2, by rw [h1], by rw [h1], by rw [h1], by rw [h2], by rw [h2], by rw [h2]⟩

/-- Last sample field values used in the tracker witness. -/
def visW : String := "daylight"

/-- A concrete telemetry sample. -/
def sampleW : TelemetrySample := ⟨0, 0, 408, 27600, visW⟩

/-- A concrete tracker state with empty trails. -/
def stW : TrackerState := ⟨none, none, [], []⟩

/-- Witness for C9: a 500 response on a fresh state only sets the error
indicator. -/
theorem fetchISSData_failure_frame_w :
    fetchTick stW (.http 500 sampleW) = { stW with error := some pollNotOkMsg } :=
  (fetchISSData_failure_frame stW boomMsg 500 sampleW (by decide)).2.1

/-- C10: `handleSend` with empty-after-trim input or an in-flight request
leaves the state unchanged and makes no call; otherwise it makes the
call, with a final state whose message list is the old one with the user
message appended first and the bot reply after it, the input cleared and
`isLoading` reset; and whenever the awaited client raised, the appended
bot text is the fixed apology string. -/
theorem handleSend_spec (st : ChatState) (res : Except GError String) :
    ((isBlank st.input = true ∨ st.isLoading = true) → handleSend st res = (st, false)) ∧
    (isBlank st.input = false → st.isLoading = false →
      handleSend st res =
        ({ messages := st.messages ++ [⟨st.input, userTag⟩] ++ [⟨botReply res, botTag⟩],
           input := "", isLoading := false }, true)) ∧
    (∀ e, res = .error e → botReply res = apologyMsg) := by
  refine ⟨?_, ?_, ?_⟩
  · intro h
    have hb : (isBlank st.input || st.isLoading) = true := by
      rcases h with h | h <;> simp [h]
    simp only [handleSend]
    rw [if_pos hb]
  · intro h1 h2
    have hb : ¬ (isBlank st.input || st.isLoading) = true := by
      simp [h1, h2]
    simp only [handleSend]
    rw [if_neg hb]
  · intro e he
    subst he
    rfl

/-- A concrete chat input. -/
def inputW : String := "Tell me about the ISS"

/-- Witness for C10: a non-empty input with no request in flight and a
failing client appends the user message then the apology bot message,
clears the input and resets the in-flight flag. -/
theorem handleSend_spec_w :
    handleSend ⟨[], inputW, false⟩ (.error (.net boomMsg)) =
      ({ messages := [⟨inputW, userTag⟩, ⟨apologyMsg, botTag⟩],
         input := "", isLoading := false }, true) := by
  have h := (handleSend_spec ⟨[], inputW, false⟩ (.error (.net boomMsg))).2.1
    (by decide) rfl
  simpa [botReply] using h

end Nasa
